import Mathlib

/-!
Verification of the professor-agent workflow engine (app/graph.py).

This development gives a shallow embedding of the LangGraph workflow defined in
app/graph.py, together with the pydantic data model of app/models.py, and proves
or refutes the frozen claims about it.

Modelling conventions:
  * Python TypedDict state is a Lean structure; fields that the code reads with
    a defaulting get are plain values, fields whose absence the code observes
    are Option.
  * External collaborators (the LLM agents of app/agents.py and the two answer
    parsers) are parameters, bundled in the Collaborators structure.  A parser
    that may throw is modelled as returning Option, none meaning the exception
    branch in which the code falls back to an empty value.
  * Nodes that can raise (ValueError on a missing artifact, IndexError on an
    out-of-range lesson index) return Option LearningState, none meaning the
    raise.  Nodes that cannot raise are total functions.
  * Python float arithmetic in the quiz score, int((correct/total)*100), is
    modelled exactly: roundRatF and roundSigF implement IEEE-754 binary64
    round-to-nearest-even on significand/exponent pairs of integers.
  * Chat-UI message content produced by nodes is presentational and is never
    read back by any node (nodes only read the content of human messages), so
    AI messages are modelled without their text.
-/

set_option maxRecDepth 10000

namespace ProfessorAgent

/-! ### Python string primitives -/

/-- Whitespace characters recognised by the Python str.strip default. -/
def pyWhitespace (c : Char) : Bool :=
  c == ' ' || c == '\t' || c == '\n' || c == '\r' || c == '\x0b' || c == '\x0c'

/-- Strip leading and trailing whitespace from a character list. -/
def pyStripL (l : List Char) : List Char :=
  ((l.dropWhile pyWhitespace).reverse.dropWhile pyWhitespace).reverse

/-- Python str.strip with no arguments. -/
def pyStrip (s : String) : String := ⟨pyStripL s.data⟩

/-- Python str.lower (ASCII, which is all the code compares). -/
def pyLower (s : String) : String := ⟨s.data.map Char.toLower⟩

/-- Python str.upper (ASCII, which is all the code compares). -/
def pyUpper (s : String) : String := ⟨s.data.map Char.toUpper⟩

/-- Test whether the first list is a leading segment of the second. -/
def isPre : List Char → List Char → Bool
  | [], _ => true
  | _ :: _, [] => false
  | a :: as, b :: bs => a == b && isPre as bs

/-- Test whether needle occurs contiguously inside hay. -/
def hasSub (needle : List Char) : List Char → Bool
  | [] => needle.isEmpty
  | c :: t => isPre needle (c :: t) || hasSub needle t

/-- Python substring membership, sub in s. -/
def strContains (s sub : String) : Bool := hasSub sub.data s.data

/-- Python slicing s[:k] for a string. -/
def strTake (s : String) (k : Nat) : String := ⟨s.data.take k⟩

/-! ### Exact model of the binary64 arithmetic in the quiz score

The quiz score in process_quiz_answers is int((correct_count / total_questions)
* 100).  CPython evaluates this with IEEE-754 binary64 doubles: the division and
the multiplication are each correctly rounded to nearest, ties to even, and int
truncates toward zero.  We model a nonnegative double as a pair sig * 2 ^ ex
with sig : Nat and ex : Int, and implement the two roundings exactly. -/

/-- Fuelled bit-length helper. -/
def bitLenAux : Nat → Nat → Nat
  | 0, _ => 0
  | fuel + 1, n => if n = 0 then 0 else bitLenAux fuel (n / 2) + 1

/-- Number of binary digits of n, with bitLen 0 = 0. -/
def bitLen (n : Nat) : Nat := bitLenAux (n + 1) n

/-- Decide whether 2 ^ d * q is at most p, for a possibly negative exponent d. -/
def le2pow (d : Int) (q p : Nat) : Bool :=
  if 0 ≤ d then q * 2 ^ d.toNat ≤ p else q ≤ p * 2 ^ (-d).toNat

/-- Floor of the base-2 logarithm of the positive fraction p / q. -/
def floorLog2 (p q : Nat) : Int :=
  let d : Int := (bitLen p : Int) - (bitLen q : Int)
  if le2pow d q p then d else d - 1

/-- Round the nonnegative fraction p / q to the nearest binary64 value
(53 significant bits, ties to even), returned as significand and exponent. -/
def roundRatF (p q : Nat) : Nat × Int :=
  if p = 0 then (0, 0)
  else
    let e : Int := floorLog2 p q
    let s : Int := 52 - e
    let N : Nat := if 0 ≤ s then p * 2 ^ s.toNat else p
    let D : Nat := if 0 ≤ s then q else q * 2 ^ (-s).toNat
    let m0 : Nat := N / D
    let r : Nat := N % D
    let m : Nat :=
      if 2 * r < D then m0
      else if D < 2 * r then m0 + 1
      else if m0 % 2 = 0 then m0 else m0 + 1
    (m, e - 52)

/-- Round the integer-significand value v * 2 ^ ex back to 53 significant bits,
ties to even; this is the rounding step of a binary64 multiplication whose
exact product is v * 2 ^ ex. -/
def roundSigF (v : Nat) (ex : Int) : Nat × Int :=
  if v = 0 then (0, 0)
  else
    let L := bitLen v
    if L ≤ 53 then (v, ex)
    else
      let k := L - 53
      let m0 := v / 2 ^ k
      let r := v % 2 ^ k
      let half := 2 ^ (k - 1)
      let m : Nat :=
        if r < half then m0
        else if half < r then m0 + 1
        else if m0 % 2 = 0 then m0 else m0 + 1
      (m, ex + k)

/-- Truncation of the nonnegative double sig * 2 ^ ex to a natural number;
this is Python int() applied to a nonnegative double. -/
def truncF (sig : Nat) (ex : Int) : Nat :=
  if 0 ≤ ex then sig * 2 ^ ex.toNat else sig / 2 ^ (-ex).toNat

/-- Model of int((c / n) * 100) if n > 0 else 0 computed with binary64
doubles, as in process_quiz_answers. -/
def pyScore (c n : Nat) : Nat :=
  if n > 0 then
    let x := roundRatF c n
    let y := roundSigF (x.1 * 100) x.2
    truncF y.1 y.2
  else 0

/-! ### Data model (app/models.py) -/

/-- Difficulty levels of app/models.py. -/
inductive DifficultyLevel
  | beginner
  | intermediate
  | advanced
deriving DecidableEq, Repr

/-- Lesson model. Objectives are constrained by pydantic to 3 to 5 items. -/
structure Lesson where
  lesson_number : Int
  title : String
  objectives : List String
  key_concepts : List String
  duration_minutes : Int
  prerequisites : List String
  difficulty : DifficultyLevel
deriving DecidableEq, Repr

/-- LearningPlan model. Lessons are constrained by pydantic to 5 to 8 items. -/
structure LearningPlan where
  topic : String
  lessons : List Lesson
  total_duration_minutes : Int
  overall_difficulty : DifficultyLevel
deriving DecidableEq, Repr

/-- LectureSegment model. -/
structure LectureSegment where
  segment_number : Int
  title : String
  content : String
  duration_minutes : Int
  interaction_points : List String
deriving DecidableEq, Repr

/-- Lecture model. -/
structure Lecture where
  lesson_title : String
  introduction : String
  segments : List LectureSegment
  conclusion : String
  total_duration_minutes : Int
  key_takeaways : List String
deriving DecidableEq, Repr

/-- The discriminated union of quiz question models: MultipleChoiceQuestion,
TrueFalseQuestion, ShortAnswerQuestion. -/
inductive Question
  | mc (question : String) (options : List String) (correct_answer : String)
       (explanation : String) (misconceptions : List String)
  | tf (question : String) (correct_answer : Bool) (explanation : String)
       (misconceptions : List String)
  | sa (question : String) (correct_answer : String) (key_points : List String)
       (explanation : String) (misconceptions : List String)
deriving DecidableEq, Repr

/-- Question text shared by all three question variants. -/
def Question.question : Question → String
  | .mc q _ _ _ _ => q
  | .tf q _ _ _ => q
  | .sa q _ _ _ _ => q

/-- Quiz model. -/
structure Quiz where
  lesson_title : String
  questions : List Question
  passing_score : Int := 70
deriving DecidableEq, Repr

/-- Pydantic constraint on Quiz: exactly 5 questions (min_length = max_length
= 5 in app/models.py), so every Quiz object the generator can deliver to
process_quiz_answers has 5 questions. -/
def Quiz.valid (q : Quiz) : Prop := q.questions.length = 5

/-- AssignmentStep model. -/
structure AssignmentStep where
  step_number : Int
  instruction : String
  expected_outcome : String
  hints : List String
deriving DecidableEq, Repr

/-- Assignment model. -/
structure Assignment where
  title : String
  lesson_title : String
  objective : String
  background : String
  steps : List AssignmentStep
  deliverables : List String
  success_criteria : List String
  estimated_duration_minutes : Int
  resources : List String
  bonus_challenges : List String
deriving DecidableEq, Repr

/-- GradingResult model. The score is a float constrained to 0..100; it is
modelled as a rational standing for the double the grader returned. -/
structure GradingResult where
  assignment_title : String
  score : Rat
  passed : Bool
  strengths : List String
  improvements : List String
  recommendations : List String
  weak_points : List String
  detailed_feedback : String
  grade_level : String
deriving DecidableEq, Repr

/-- Truncation of the nonnegative grader score, Python int() on the float;
the pydantic bound 0 le score keeps it nonnegative so this is the floor. -/
def pyIntNat (q : Rat) : Nat := q.num.toNat / q.den

/-- Decision enum. -/
inductive Decision
  | advance
  | repeatLesson
deriving DecidableEq, Repr

/-- String value of the Decision enum, as used by should_advance. -/
def Decision.value : Decision → String
  | .advance => "advance"
  | .repeatLesson => "repeat"

/-- Confidence enum. -/
inductive Confidence
  | high
  | medium
  | low
deriving DecidableEq, Repr

/-- ProgressDecision model. -/
structure ProgressDecision where
  decision : Decision
  reasoning : String
  focus_areas : List String
  confidence : Confidence
  current_lesson : Int
  total_lessons : Int
  quiz_score : Rat
  assignment_score : Rat
  attempt_count : Int
deriving DecidableEq, Repr

/-- RepeatMessage model. -/
structure RepeatMessage where
  message : String
  acknowledgment : String
  explanation : String
  focus_areas : List String
  study_tips : List String
  expectations : String
deriving DecidableEq, Repr

/-- AdvanceMessage model. -/
structure AdvanceMessage where
  message : String
  celebration : String
  key_achievements : List String
  next_lesson_preview : String
  motivation : String
  progress_summary : String
deriving DecidableEq, Repr

/-! ### Session state (LearningState TypedDict of app/graph.py) -/

/-- Chat messages. The workflow only ever reads the content of human
messages (to feed the answer parsers); the content of AI messages is
presentational chat-UI text that no node reads back, so it is not modelled. -/
inductive Message
  | human (content : String)
  | ai
deriving DecidableEq, Repr

/-- The LearningState TypedDict. The TypedDict is total=False; fields that
the code reads with a defaulting get are modelled with that default inlined,
while assignment_score, whose absence should_advance observes through
state.get with default 0, and the Optional artifact fields are Option. -/
structure LearningState where
  messages : List Message := []
  query : String := ""
  topic : String := ""
  background : String := ""
  learning_plan : Option LearningPlan := none
  current_lesson_idx : Nat := 0
  lecture_content : Option Lecture := none
  quiz_results : Option Quiz := none
  quiz_score : Nat := 0
  quiz_answers : Option (List (String × String)) := none
  assignment : Option Assignment := none
  assignment_submission : String := ""
  assignment_score : Option Nat := none
  grading_result : Option GradingResult := none
  weak_points : List String := []
  attempt_count : Nat := 0
  message : String := ""
  completed : Bool := false
  waiting_for_input : Bool := false
  input_type : Option String := none
deriving DecidableEq, Repr

/-! ### External collaborators

The content generators of app/agents.py and the two natural-language answer
parsers are out of scope per the specification; they enter the embedding as
opaque function parameters.  A parser returning none models the exception
branch of the try/except around it. -/

/-- Bundle of the external collaborator functions, in the argument order the
nodes pass them. -/
structure Collaborators where
  create_lecture : String → List String → List String → String → Option (List String) → Lecture
  create_quiz : String → List String → List String → String → Quiz
  create_assignment_agent : String → List String → List String → String → Assignment
  grade_assignment_agent : String → List String → List String → String → GradingResult
  check_progress_agent : String → Nat → Nat → List String → Nat → ProgressDecision
  create_repeat_message : String → List String → Nat → RepeatMessage
  create_advance_message : String → String → List String → AdvanceMessage
  evaluate_short_answer : String → List String → String → Bool
  parse_quiz_answers : String → String → Option (List (String × String))
  parse_assignment_submission : String → String → Option String

/-! ### Node helper functions -/

/-- Python answers.get(key, default) on the quiz-answer dict. -/
def dictGet (d : List (String × String)) (k dflt : String) : String :=
  match d.find? (fun p => p.1 == k) with
  | some p => p.2
  | none => dflt

/-- Content of the last human message, if any; the nodes select
human messages and take the content of the last one. -/
def lastHumanContent (msgs : List Message) : Option String :=
  match (msgs.filter fun m => match m with | .human _ => true | .ai => false).getLast? with
  | some (.human c) => some c
  | _ => none

/-- Lecture summary string built by administer_quiz for the quiz generator. -/
def lectureSummary (lec : Lecture) : String :=
  lec.introduction ++ "\n" ++ String.intercalate "\n"
    (lec.segments.map fun seg => seg.title ++ ": " ++ strTake seg.content 200 ++ "...")

/-- Numbered question list built by process_quiz_answers for the answer
parser. -/
def quizQuestionsStr (q : Quiz) : String :=
  String.intercalate "\n"
    (q.questions.enum.map fun p => toString (p.1 + 1) ++ ". " ++ p.2.question)

/-- Quiz performance summary built by create_assignment_node for the
assignment generator. -/
def quizPerformance (s : LearningState) : String :=
  let base := "Quiz score: " ++ toString s.quiz_score ++ "%"
  if s.weak_points ≠ [] then
    base ++ ", Weak areas: " ++ String.intercalate ", " s.weak_points
  else base

/-- Assignment description built by grade_assignment_node for the submission
parser. -/
def assignmentDesc (a : Assignment) : String :=
  a.title ++ "\n" ++ a.objective ++ "\n\nSteps:\n" ++
    String.intercalate "\n"
      (a.steps.map fun st => toString st.step_number ++ ". " ++ st.instruction)

/-- The answers dict process_quiz_answers ends up scoring: the quiz_answers
state field if truthy, otherwise the dict parsed from the last human message
when there are messages and a quiz (empty when parsing throws or there is no
human message). -/
def effectiveQuizAnswers (c : Collaborators) (s : LearningState) : List (String × String) :=
  let answers := s.quiz_answers.getD []
  if answers.isEmpty && !s.messages.isEmpty && s.quiz_results.isSome then
    match s.quiz_results, lastHumanContent s.messages with
    | some quiz, some raw => (c.parse_quiz_answers raw (quizQuestionsStr quiz)).getD []
    | _, _ => answers
  else answers

/-- The submission grade_assignment_node ends up grading: the
assignment_submission state field if non-empty, otherwise the text parsed from
the last human message (empty when parsing throws or there is no human
message). -/
def effectiveSubmission (c : Collaborators) (a : Assignment) (s : LearningState) : String :=
  let submission := s.assignment_submission
  if submission == "" && !s.messages.isEmpty then
    match lastHumanContent s.messages with
    | some raw => (c.parse_assignment_submission raw (assignmentDesc a)).getD ""
    | none => submission
  else submission

/-- Per-question grading of process_quiz_answers: multiple choice compares
stripped uppercased letters, true/false maps the stripped lowercased text to
the boolean it equals "true", short answer defers to the evaluator. -/
def gradeOne (c : Collaborators) (answers : List (String × String)) (i : Nat)
    (q : Question) : Bool :=
  let user_answer := dictGet answers ("q" ++ toString i) ""
  match q with
  | .mc _ _ correct _ _ => pyUpper (pyStrip user_answer) == pyUpper (pyStrip correct)
  | .tf _ correct _ _ => (pyLower (pyStrip user_answer) == "true") == correct
  | .sa question _ key_points _ _ => c.evaluate_short_answer question key_points user_answer

/-- Number of correctly answered questions in the grading loop. -/
def correctCount (c : Collaborators) (answers : List (String × String))
    (qs : List Question) : Nat :=
  (qs.enum.filter fun p => gradeOne c answers p.1 p.2).length

/-- Weak points accumulated by the grading loop: the first 50 characters of
each incorrectly answered question, in encounter order. -/
def quizWeakPoints (c : Collaborators) (answers : List (String × String))
    (qs : List Question) : List String :=
  (qs.enum.filter fun p => !gradeOne c answers p.1 p.2).map fun p =>
    strTake p.2.question 50

/-- Failure test shared verbatim by check_extraction_result and
route_after_extraction: the stripped value is empty or its lowercase contains
one of the failed_values substrings. -/
def extractionFailed (t : String) : Bool :=
  let t := pyStrip t
  t == "" || strContains (pyLower t) "failed to detect" || strContains (pyLower t) "failed"

/-! ### Workflow nodes (app/graph.py) -/

/-- Node check_extraction: flags waiting_for_input with input_type
extraction_retry when topic or background extraction failed. -/
def check_extraction_result (s : LearningState) : LearningState :=
  if extractionFailed s.topic || extractionFailed s.background then
    { s with waiting_for_input := true, input_type := some "extraction_retry" }
  else s

/-- Node request_new_query: posts the retry prompt and pauses for a new
query. -/
def request_new_query (s : LearningState) : LearningState :=
  { s with
    messages := s.messages ++ [Message.ai],
    waiting_for_input := true,
    input_type := some "new_query",
    message := "I couldn’t understand your request. Please provide more details about what you’d like to learn and your background." }

/-- Node check_progress: raises (none) without a learning plan; marks the
course completed when the lesson index has passed the last lesson, otherwise
introduces the current lesson. -/
def check_progress_node (s : LearningState) : Option LearningState :=
  match s.learning_plan with
  | none => none
  | some plan =>
    if s.current_lesson_idx ≥ plan.lessons.length then
      some { s with
        messages := s.messages ++ [Message.ai],
        completed := true,
        message := "Course completed successfully!",
        waiting_for_input := false }
    else
      some { s with messages := s.messages ++ [Message.ai], waiting_for_input := false }

/-- Node lecture: raises (none) without a plan or with an out-of-range lesson
index, otherwise stores the generated lecture. -/
def give_lecture (c : Collaborators) (s : LearningState) : Option LearningState :=
  match s.learning_plan with
  | none => none
  | some plan =>
    match plan.lessons[s.current_lesson_idx]? with
    | none => none
    | some lesson =>
      let lecture := c.create_lecture lesson.title lesson.objectives lesson.key_concepts
        ("Lesson " ++ toString (s.current_lesson_idx + 1) ++ " of " ++
          toString plan.lessons.length)
        (if s.weak_points ≠ [] then some s.weak_points else none)
      some { s with
        messages := s.messages ++ [Message.ai],
        lecture_content := some lecture,
        waiting_for_input := false }

/-- Node quiz: raises (none) without a plan or lecture or with an out-of-range
lesson index, otherwise stores the generated quiz and pauses for answers. -/
def administer_quiz (c : Collaborators) (s : LearningState) : Option LearningState :=
  match s.learning_plan, s.lecture_content with
  | some plan, some lecture =>
    match plan.lessons[s.current_lesson_idx]? with
    | none => none
    | some lesson =>
      let quiz := c.create_quiz lesson.title lesson.objectives lesson.key_concepts
        (lectureSummary lecture)
      some { s with
        messages := s.messages ++ [Message.ai],
        quiz_results := some quiz,
        waiting_for_input := true,
        input_type := some "quiz" }
  | _, _ => none

/-- Node process_quiz: with no quiz or no answers it reports score 0 and
resumes; otherwise it scores the answers, stores the float-computed
percentage and the first three weak points, and clears waiting_for_input. -/
def process_quiz_answers (c : Collaborators) (s : LearningState) : LearningState :=
  let answers := effectiveQuizAnswers c s
  match s.quiz_results with
  | none =>
    { s with
      messages := s.messages ++ [Message.ai],
      quiz_score := 0,
      waiting_for_input := false }
  | some quiz =>
    if answers.isEmpty then
      { s with
        messages := s.messages ++ [Message.ai],
        quiz_score := 0,
        waiting_for_input := false }
    else
      { s with
        messages := s.messages ++ [Message.ai],
        quiz_score := pyScore (correctCount c answers quiz.questions) quiz.questions.length,
        weak_points := (quizWeakPoints c answers quiz.questions).take 3,
        waiting_for_input := false }

/-- Node assignment: raises (none) without a plan or with an out-of-range
lesson index, otherwise stores the generated assignment and pauses for the
submission. -/
def create_assignment_node (c : Collaborators) (s : LearningState) : Option LearningState :=
  match s.learning_plan with
  | none => none
  | some plan =>
    match plan.lessons[s.current_lesson_idx]? with
    | none => none
    | some lesson =>
      let a := c.create_assignment_agent lesson.title lesson.objectives
        lesson.key_concepts (quizPerformance s)
      some { s with
        messages := s.messages ++ [Message.ai],
        assignment := some a,
        waiting_for_input := true,
        input_type := some "assignment" }

/-- Node grade: raises (none) without an assignment or plan or with an
out-of-range lesson index; an empty or whitespace-only submission
short-circuits to score 0 with the full key-concept list as weak points,
otherwise the grader is consulted. -/
def grade_assignment_node (c : Collaborators) (s : LearningState) : Option LearningState :=
  match s.assignment, s.learning_plan with
  | some assignment, some plan =>
    match plan.lessons[s.current_lesson_idx]? with
    | none => none
    | some lesson =>
      let submission := effectiveSubmission c assignment s
      if submission == "" || pyStrip submission == "" then
        some { s with
          messages := s.messages ++ [Message.ai],
          assignment_score := some 0,
          weak_points := lesson.key_concepts,
          waiting_for_input := false }
      else
        let g := c.grade_assignment_agent assignment.title
          (assignment.steps.map fun st => st.instruction)
          assignment.success_criteria submission
        some { s with
          messages := s.messages ++ [Message.ai],
          grading_result := some g,
          assignment_score := some (pyIntNat g.score),
          weak_points := g.weak_points,
          waiting_for_input := false }
  | _, _ => none

/-- Conditional router should_advance after the grade node: end when the
course is completed, otherwise the external progress agent decides, with a
missing assignment_score defaulting to 0 through state.get. -/
def should_advance (c : Collaborators) (s : LearningState) : Option String :=
  if s.completed then some "end"
  else
    match s.learning_plan with
    | none => none
    | some plan =>
      match plan.lessons[s.current_lesson_idx]? with
      | none => none
      | some lesson =>
        let d := c.check_progress_agent lesson.title s.quiz_score
          (s.assignment_score.getD 0) s.weak_points s.attempt_count
        some d.decision.value

/-- Node advance: raises (none) without a plan or with an out-of-range lesson
index, otherwise clears the per-lesson artifacts, resets the attempt count and
moves to the next lesson index. -/
def advance_lesson (c : Collaborators) (s : LearningState) : Option LearningState :=
  match s.learning_plan with
  | none => none
  | some plan =>
    match plan.lessons[s.current_lesson_idx]? with
    | none => none
    | some current_lesson =>
      let next_idx := s.current_lesson_idx + 1
      let next_lesson_title :=
        match plan.lessons[next_idx]? with
        | none => "Course Completion"
        | some l => l.title
      let msg := c.create_advance_message current_lesson.title next_lesson_title
        (current_lesson.key_concepts.take 3)
      some { s with
        messages := s.messages ++ [Message.ai],
        current_lesson_idx := next_idx,
        attempt_count := 0,
        weak_points := [],
        message := msg.message,
        lecture_content := none,
        quiz_results := none,
        quiz_answers := none,
        assignment := none,
        assignment_submission := "",
        grading_result := none,
        waiting_for_input := false }

/-- Node repeat: raises (none) without a plan or with an out-of-range lesson
index, otherwise clears the per-lesson artifacts and increments the attempt
count, keeping the lesson index. -/
def repeat_lesson (c : Collaborators) (s : LearningState) : Option LearningState :=
  match s.learning_plan with
  | none => none
  | some plan =>
    match plan.lessons[s.current_lesson_idx]? with
    | none => none
    | some current_lesson =>
      let msg := c.create_repeat_message current_lesson.title s.weak_points
        (s.attempt_count + 1)
      some { s with
        messages := s.messages ++ [Message.ai],
        attempt_count := s.attempt_count + 1,
        message := msg.message,
        lecture_content := none,
        quiz_results := none,
        quiz_answers := none,
        assignment := none,
        assignment_submission := "",
        grading_result := none,
        waiting_for_input := false }

/-- Conditional router after check_extraction. -/
def route_after_extraction (s : LearningState) : String :=
  if !extractionFailed s.topic && !extractionFailed s.background then "generate_plan"
  else "request_new_query"

/-! ### Graph wiring (create_graph in app/graph.py) -/

/-- Nodes of the compiled StateGraph, plus the terminal END. -/
inductive GNode
  | extract
  | check_extraction
  | request_new_query
  | generate_plan
  | check_progress
  | lecture
  | quiz
  | process_quiz
  | assignment
  | grade
  | advance
  | repeatNode
  | terminalEnd
deriving DecidableEq, Repr

/-- The unconditional add_edge wiring of create_graph; none for the two nodes
that leave through add_conditional_edges and for END. -/
def staticEdge : GNode → Option GNode
  | .extract => some .check_extraction
  | .request_new_query => some .extract
  | .generate_plan => some .check_progress
  | .check_progress => some .lecture
  | .lecture => some .quiz
  | .quiz => some .process_quiz
  | .process_quiz => some .assignment
  | .assignment => some .grade
  | .advance => some .check_progress
  | .repeatNode => some .lecture
  | _ => none

/-- The conditional-edge mapping attached to check_extraction. -/
def extractionEdgeMap (r : String) : Option GNode :=
  if r == "generate_plan" then some .generate_plan
  else if r == "request_new_query" then some .request_new_query
  else none

/-- The conditional-edge mapping attached to grade. -/
def gradeEdgeMap (r : String) : Option GNode :=
  if r == "advance" then some .advance
  else if r == "repeat" then some .repeatNode
  else if r == "end" then some .terminalEnd
  else none

/-- Interrupt configuration of graph.compile. -/
def interruptBefore : List GNode := [.request_new_query]

/-- Interrupt configuration of graph.compile. -/
def interruptAfter : List GNode := [.quiz, .assignment]

/-! ### Concrete collaborator stubs and states used to instantiate the
claims on explicit inputs -/

/-- Concrete lesson with the given key concepts. -/
def stubLesson (ks : List String) : Lesson :=
  { lesson_number := 1, title := "Sorting", objectives := ["o1", "o2", "o3"],
    key_concepts := ks, duration_minutes := 30, prerequisites := [],
    difficulty := .beginner }

/-- Concrete learning plan with n copies of a lesson having key concepts ks. -/
def planK (ks : List String) (n : Nat) : LearningPlan :=
  { topic := "Algorithms", lessons := List.replicate n (stubLesson ks),
    total_duration_minutes := 150, overall_difficulty := .beginner }

/-- Concrete lecture segment. -/
def stubSegment : LectureSegment :=
  { segment_number := 1, title := "Seg", content := "Content",
    duration_minutes := 5, interaction_points := [] }

/-- Concrete lecture. -/
def stubLecture : Lecture :=
  { lesson_title := "Sorting", introduction := "Intro",
    segments := [stubSegment, stubSegment], conclusion := "Concl",
    total_duration_minutes := 15, key_takeaways := ["t1"] }

/-- Concrete multiple-choice question with the given correct letter. -/
def mcQ (ans : String) : Question :=
  .mc "Which option is right?" ["w", "x", "y", "z"] ans "because" []

/-- Concrete true/false question with the given correct boolean. -/
def tfQ (b : Bool) : Question :=
  .tf "Is the statement true?" b "because" []

/-- Concrete quiz satisfying the pydantic length-5 constraint. -/
def stubQuiz5 : Quiz :=
  { lesson_title := "Sorting",
    questions := [mcQ "A", mcQ "B", tfQ true, tfQ false, mcQ "C"],
    passing_score := 70 }

/-- Concrete assignment step. -/
def stubStep : AssignmentStep :=
  { step_number := 1, instruction := "Do the task", expected_outcome := "Done",
    hints := [] }

/-- Concrete assignment. -/
def stubAssignment : Assignment :=
  { title := "Task", lesson_title := "Sorting", objective := "Practice",
    background := "Bg", steps := List.replicate 5 stubStep,
    deliverables := ["d1"], success_criteria := ["c1"],
    estimated_duration_minutes := 30, resources := [], bonus_challenges := [] }

/-- Concrete grading result. -/
def stubGrading : GradingResult :=
  { assignment_title := "Task", score := mkRat 85 1, passed := true,
    strengths := ["s1", "s2"], improvements := ["i1", "i2"],
    recommendations := ["r1"], weak_points := ["w1"],
    detailed_feedback := "fb", grade_level := "Meets" }

/-- Concrete progress decision. -/
def stubDecision : ProgressDecision :=
  { decision := .advance, reasoning := "ok", focus_areas := [],
    confidence := .high, current_lesson := 1, total_lessons := 5,
    quiz_score := mkRat 80 1, assignment_score := mkRat 85 1,
    attempt_count := 1 }

/-- Concrete repeat message. -/
def stubRepeatMsg : RepeatMessage :=
  { message := "again", acknowledgment := "ok", explanation := "why",
    focus_areas := ["f1", "f2"], study_tips := ["t1"], expectations := "e" }

/-- Concrete advance message. -/
def stubAdvanceMsg : AdvanceMessage :=
  { message := "onward", celebration := "yay", key_achievements := ["a1"],
    next_lesson_preview := "next", motivation := "go",
    progress_summary := "good" }

/-- Concrete collaborator bundle whose members return the stub objects and
whose parsers return none (the exception branch). -/
def witCollab : Collaborators :=
  { create_lecture := fun _ _ _ _ _ => stubLecture,
    create_quiz := fun _ _ _ _ => stubQuiz5,
    create_assignment_agent := fun _ _ _ _ => stubAssignment,
    grade_assignment_agent := fun _ _ _ _ => stubGrading,
    check_progress_agent := fun _ _ _ _ _ => stubDecision,
    create_repeat_message := fun _ _ _ => stubRepeatMsg,
    create_advance_message := fun _ _ _ => stubAdvanceMsg,
    evaluate_short_answer := fun _ _ _ => false,
    parse_quiz_answers := fun _ _ => none,
    parse_assignment_submission := fun _ _ => none }

/-- State paused at the quiz with one structured answer supplied. -/
def c1State : LearningState :=
  { quiz_results := some stubQuiz5, quiz_answers := some [("q0", "a")],
    waiting_for_input := true, input_type := some "quiz" }

/-- Mid-lesson state with every per-lesson artifact populated. -/
def c2State : LearningState :=
  { topic := "Algorithms", background := "novice",
    learning_plan := some (planK ["k1", "k2"] 5), current_lesson_idx := 0,
    lecture_content := some stubLecture, quiz_results := some stubQuiz5,
    quiz_score := 80, quiz_answers := some [("q0", "A")],
    assignment := some stubAssignment, assignment_submission := "my work",
    assignment_score := some 85, grading_result := some stubGrading,
    weak_points := ["w1"], attempt_count := 2 }

/-- Result of the advance transition from c2State. -/
def c2Result : LearningState := (advance_lesson witCollab c2State).getD c2State

/-- Result of the repeat transition from c2State. -/
def c3Result : LearningState := (repeat_lesson witCollab c2State).getD c2State

/-- The 5-lesson plan of the completion scenario. -/
def c4Plan : LearningPlan := planK ["k1", "k2"] 5

/-- State in which all five lessons have been advanced past:
current_lesson_idx equals the number of lessons. -/
def c4State : LearningState :=
  { learning_plan := some c4Plan, current_lesson_idx := 5 }

/-- Result of check_progress on the completion state. -/
def c4Result : LearningState := (check_progress_node c4State).getD c4State

/-- State at the grade node with a whitespace-only submission. -/
def c5State : LearningState :=
  { learning_plan := some (planK ["k1", "k2"] 5),
    assignment := some stubAssignment, assignment_submission := "   ",
    waiting_for_input := true, input_type := some "assignment" }

/-- State at the grade node whose lesson has four key concepts and whose
submission is empty, with no messages to parse. -/
def c6State : LearningState :=
  { learning_plan := some (planK ["alpha", "beta", "gamma", "delta"] 5),
    assignment := some stubAssignment, assignment_submission := "" }

/-- Result of the grade node on c6State. -/
def c6Result : LearningState := (grade_assignment_node witCollab c6State).getD c6State

/-- Variant of c6State with a non-empty submission. -/
def c6bState : LearningState := { c6State with assignment_submission := "finished work" }

/-- State paused at the quiz with one structured answer, for the quiz part of
the weak-point bound. -/
def c6qState : LearningState :=
  { quiz_results := some stubQuiz5, quiz_answers := some [("q0", "A")] }

/-- State whose topic is non-empty and differs from the sentinel but contains
the word failed. -/
def c7State : LearningState :=
  { topic := "I failed to grok monads", background := "CS undergrad" }

/-- State paused at the quiz, as administer_quiz leaves it, with answers
supplied. -/
def c8State : LearningState :=
  { quiz_results := some stubQuiz5, quiz_answers := some [("q0", "A")],
    waiting_for_input := true, input_type := some "quiz" }

/-- Rich state on which each pausing and resuming node can run. -/
def c8wState : LearningState :=
  { learning_plan := some (planK ["k1", "k2"] 5), current_lesson_idx := 0,
    lecture_content := some stubLecture, assignment := some stubAssignment,
    assignment_submission := "done", input_type := some "assignment" }

/-- Output of administer_quiz on c8wState. -/
def c8QuizOut : LearningState := (administer_quiz witCollab c8wState).getD c8wState

/-- Output of create_assignment_node on c8wState. -/
def c8AsgOut : LearningState := (create_assignment_node witCollab c8wState).getD c8wState

/-- Output of grade_assignment_node on c8wState. -/
def c8GradeOut : LearningState := (grade_assignment_node witCollab c8wState).getD c8wState

/-- State reaching should_advance with no assignment_score recorded. -/
def c9State : LearningState :=
  { learning_plan := some (planK ["k1", "k2"] 5), current_lesson_idx := 0,
    quiz_score := 80, weak_points := ["w1"], attempt_count := 1,
    assignment_score := none, completed := false }

/-- State reaching process_quiz with no quiz stored. -/
def c10State : LearningState :=
  { quiz_results := none, weak_points := ["keep"],
    waiting_for_input := true, input_type := some "quiz" }

/-! ### Helper lemmas -/

/-- The quiz score model agrees with the floor formula on every quiz size the
Quiz schema admits: for 5 questions the two binary64 roundings are exact
enough that truncation lands on the floor. -/
lemma pyScore_five : ∀ k < 6, pyScore k 5 = 100 * k / 5 := by decide

/-- The grading loop cannot count more correct answers than questions. -/
lemma correctCount_le_length (c : Collaborators) (answers : List (String × String))
    (qs : List Question) : correctCount c answers qs ≤ qs.length := by
  unfold correctCount
  calc (qs.enum.filter fun p => gradeOne c answers p.1 p.2).length
      ≤ qs.enum.length := List.length_filter_le _ _
    _ = qs.length := List.enum_length

/-- Branch equation of process_quiz: missing quiz or empty answers. -/
lemma pqa_empty (c : Collaborators) (s : LearningState)
    (h : s.quiz_results = none ∨ effectiveQuizAnswers c s = []) :
    process_quiz_answers c s =
      { s with
        messages := s.messages ++ [Message.ai],
        quiz_score := 0,
        waiting_for_input := false } := by
  unfold process_quiz_answers
  rcases h with h | h
  · rw [h]
  · cases hq : s.quiz_results with
    | none => rfl
    | some quiz => simp [h]

/-- Branch equation of process_quiz: quiz present and answers non-empty. -/
lemma pqa_scored (c : Collaborators) (s : LearningState) (quiz : Quiz)
    (hq : s.quiz_results = some quiz) (ha : effectiveQuizAnswers c s ≠ []) :
    process_quiz_answers c s =
      { s with
        messages := s.messages ++ [Message.ai],
        quiz_score := pyScore (correctCount c (effectiveQuizAnswers c s) quiz.questions)
          quiz.questions.length,
        weak_points := (quizWeakPoints c (effectiveQuizAnswers c s) quiz.questions).take 3,
        waiting_for_input := false } := by
  have hE : (effectiveQuizAnswers c s).isEmpty = false := by
    cases hE2 : effectiveQuizAnswers c s with
    | nil => exact absurd hE2 ha
    | cons a t => rfl
  unfold process_quiz_answers
  rw [hq]
  simp [hE]

/-- Branch equation of the grade node: empty or whitespace-only submission. -/
lemma grade_empty_eq (c : Collaborators) (s : LearningState) (a : Assignment)
    (p : LearningPlan) (lesson : Lesson)
    (ha : s.assignment = some a) (hp : s.learning_plan = some p)
    (hl : p.lessons[s.current_lesson_idx]? = some lesson)
    (hsub : pyStrip (effectiveSubmission c a s) = "") :
    grade_assignment_node c s =
      some { s with
        messages := s.messages ++ [Message.ai],
        assignment_score := some 0,
        weak_points := lesson.key_concepts,
        waiting_for_input := false } := by
  unfold grade_assignment_node
  simp only [ha, hp, hl]
  simp [hsub]

/-- Branch equation of the grade node: substantive submission. -/
lemma grade_scored_eq (c : Collaborators) (s : LearningState) (a : Assignment)
    (p : LearningPlan) (lesson : Lesson)
    (ha : s.assignment = some a) (hp : s.learning_plan = some p)
    (hl : p.lessons[s.current_lesson_idx]? = some lesson)
    (hsub : pyStrip (effectiveSubmission c a s) ≠ "") :
    grade_assignment_node c s =
      some { s with
        messages := s.messages ++ [Message.ai],
        grading_result := some (c.grade_assignment_agent a.title
          (a.steps.map fun st => st.instruction) a.success_criteria
          (effectiveSubmission c a s)),
        assignment_score := some (pyIntNat (c.grade_assignment_agent a.title
          (a.steps.map fun st => st.instruction) a.success_criteria
          (effectiveSubmission c a s)).score),
        weak_points := (c.grade_assignment_agent a.title
          (a.steps.map fun st => st.instruction) a.success_criteria
          (effectiveSubmission c a s)).weak_points,
        waiting_for_input := false } := by
  have hne : effectiveSubmission c a s ≠ "" := by
    intro h
    exact hsub (by rw [h]; rfl)
  unfold grade_assignment_node
  simp only [ha, hp, hl]
  simp [hne, hsub]

/-! ### Claims -/

/-- C1: for every quiz processed by process_quiz_answers with n questions
(n = 5 for every quiz the schema admits) and c of them answered correctly,
the stored quiz_score equals floor(100 * c / n), and a zero question count
yields score 0. -/
theorem quiz_score_formula (c : Collaborators) (s : LearningState) (quiz : Quiz)
    (hq : s.quiz_results = some quiz) (hv : quiz.valid)
    (ha : effectiveQuizAnswers c s ≠ []) :
    (process_quiz_answers c s).quiz_score =
      100 * correctCount c (effectiveQuizAnswers c s) quiz.questions /
        quiz.questions.length
    ∧ ∀ k, pyScore k 0 = 0 := by
  constructor
  · rw [pqa_scored c s quiz hq ha]
    have hlen : quiz.questions.length = 5 := hv
    have hcc : correctCount c (effectiveQuizAnswers c s) quiz.questions < 6 := by
      have := correctCount_le_length c (effectiveQuizAnswers c s) quiz.questions
      omega
    show pyScore (correctCount c (effectiveQuizAnswers c s) quiz.questions)
      quiz.questions.length =
      100 * correctCount c (effectiveQuizAnswers c s) quiz.questions /
        quiz.questions.length
    rw [hlen]
    exact pyScore_five _ hcc
  · intro k
    simp [pyScore]

/-- C1 witness: the theorem instantiated on a concrete paused state with a
concrete 5-question quiz and one structured answer. -/
theorem quiz_score_formula_witness :
    (process_quiz_answers witCollab c1State).quiz_score =
      100 * correctCount witCollab (effectiveQuizAnswers witCollab c1State)
        stubQuiz5.questions / stubQuiz5.questions.length
    ∧ ∀ k, pyScore k 0 = 0 :=
  quiz_score_formula witCollab c1State stubQuiz5 rfl rfl (by decide)

/-- C2: whenever the advance transition produces a state, that state has the
per-lesson artifacts cleared, the submission empty, the attempt count reset,
the lesson index incremented by one, and topic, background and plan
untouched. -/
theorem advance_lesson_frame (c : Collaborators) (s s2 : LearningState)
    (h : advance_lesson c s = some s2) :
    s2.lecture_content = none ∧ s2.quiz_results = none ∧ s2.assignment = none ∧
    s2.grading_result = none ∧ s2.quiz_answers = none ∧
    s2.assignment_submission = "" ∧ s2.attempt_count = 0 ∧
    s2.current_lesson_idx = s.current_lesson_idx + 1 ∧
    s2.topic = s.topic ∧ s2.background = s.background ∧
    s2.learning_plan = s.learning_plan := by
  unfold advance_lesson at h
  split at h
  · exact absurd h (by simp)
  · split at h
    · exact absurd h (by simp)
    · injection h with h2
      subst h2
      exact ⟨rfl, rfl, rfl, rfl, rfl, rfl, rfl, rfl, rfl, rfl, rfl⟩

/-- C2 witness: the theorem instantiated on a concrete mid-lesson state. -/
theorem advance_lesson_frame_witness :
    c2Result.lecture_content = none ∧ c2Result.quiz_results = none ∧
    c2Result.assignment = none ∧ c2Result.grading_result = none ∧
    c2Result.quiz_answers = none ∧ c2Result.assignment_submission = "" ∧
    c2Result.attempt_count = 0 ∧
    c2Result.current_lesson_idx = c2State.current_lesson_idx + 1 ∧
    c2Result.topic = c2State.topic ∧ c2Result.background = c2State.background ∧
    c2Result.learning_plan = c2State.learning_plan :=
  advance_lesson_frame witCollab c2State c2Result (by decide)

/-- C3: whenever the repeat transition produces a state, that state has the
same artifact fields cleared as the advance transition, the attempt count
incremented by exactly one, and the lesson index unchanged. -/
theorem repeat_lesson_frame (c : Collaborators) (s s2 : LearningState)
    (h : repeat_lesson c s = some s2) :
    s2.lecture_content = none ∧ s2.quiz_results = none ∧ s2.assignment = none ∧
    s2.grading_result = none ∧ s2.quiz_answers = none ∧
    s2.assignment_submission = "" ∧
    s2.attempt_count = s.attempt_count + 1 ∧
    s2.current_lesson_idx = s.current_lesson_idx := by
  unfold repeat_lesson at h
  split at h
  · exact absurd h (by simp)
  · split at h
    · exact absurd h (by simp)
    · injection h with h2
      subst h2
      exact ⟨rfl, rfl, rfl, rfl, rfl, rfl, rfl, rfl⟩

/-- C3 witness: the theorem instantiated on a concrete mid-lesson state. -/
theorem repeat_lesson_frame_witness :
    c3Result.lecture_content = none ∧ c3Result.quiz_results = none ∧
    c3Result.assignment = none ∧ c3Result.grading_result = none ∧
    c3Result.quiz_answers = none ∧ c3Result.assignment_submission = "" ∧
    c3Result.attempt_count = c2State.attempt_count + 1 ∧
    c3Result.current_lesson_idx = c2State.current_lesson_idx :=
  repeat_lesson_frame witCollab c2State c3Result (by decide)

/-- C4: the claim says the transition after CheckProgress routes to the
terminal End once the index reaches the lesson count.  The node does set
completed on exactly that condition, but create_graph wires check_progress to
lecture unconditionally, and the lecture node then raises IndexError on the
out-of-range lesson index (modelled as none), for any collaborators. -/
theorem check_progress_completion_bug (c : Collaborators) :
    staticEdge GNode.check_progress = some GNode.lecture ∧
    check_progress_node c4State = some c4Result ∧
    c4Result.completed = true ∧
    c4State.completed = false ∧
    c4Plan.lessons.length = 5 ∧
    c4State.current_lesson_idx = 5 ∧
    give_lecture c c4Result = none := by
  refine ⟨rfl, by decide, by decide, by decide, by decide, by decide, rfl⟩

/-- C5: when the submission the grade node ends up with is empty or
whitespace-only, the node returns score 0 and the full key-concept list as
weak points, and its output does not depend on the grading collaborator. -/
theorem grade_empty_submission (c : Collaborators) (s : LearningState)
    (a : Assignment) (p : LearningPlan) (lesson : Lesson)
    (ha : s.assignment = some a) (hp : s.learning_plan = some p)
    (hl : p.lessons[s.current_lesson_idx]? = some lesson)
    (hsub : pyStrip (effectiveSubmission c a s) = "") :
    ∃ s2, grade_assignment_node c s = some s2 ∧
      s2.assignment_score = some 0 ∧
      s2.weak_points = lesson.key_concepts ∧
      ∀ g, grade_assignment_node { c with grade_assignment_agent := g } s = some s2 := by
  refine ⟨_, grade_empty_eq c s a p lesson ha hp hl hsub, rfl, rfl, ?_⟩
  intro g
  exact grade_empty_eq { c with grade_assignment_agent := g } s a p lesson ha hp hl hsub

/-- C5 witness: the theorem instantiated on a concrete state with a
whitespace-only submission. -/
theorem grade_empty_submission_witness :
    ∃ s2, grade_assignment_node witCollab c5State = some s2 ∧
      s2.assignment_score = some 0 ∧
      s2.weak_points = (stubLesson ["k1", "k2"]).key_concepts ∧
      ∀ g, grade_assignment_node { witCollab with grade_assignment_agent := g }
        c5State = some s2 :=
  grade_empty_submission witCollab c5State stubAssignment (planK ["k1", "k2"] 5)
    (stubLesson ["k1", "k2"]) rfl rfl (by decide) (by decide)

/-- C6 counterexample: a grading pass on a lesson with four key concepts and
an empty submission stores four weak points, so weak_points is not bounded by
three entries. -/
theorem weak_points_bound_cex :
    grade_assignment_node witCollab c6State = some c6Result ∧
    c6Result.weak_points.length = 4 ∧
    ¬ c6Result.weak_points.length ≤ 3 := by
  refine ⟨by decide, by decide, by decide⟩

/-- C6 amended: a scored quiz-processing pass recomputes weak_points and caps
it at three entries; a grading pass recomputes it without that bound, to the
full key-concept list on an empty submission and to the grading
collaborator's weak-point list otherwise. -/
theorem weak_points_recomputation (c : Collaborators) (s : LearningState) :
    (∀ quiz, s.quiz_results = some quiz → effectiveQuizAnswers c s ≠ [] →
      (process_quiz_answers c s).weak_points.length ≤ 3) ∧
    (∀ a p lesson, s.assignment = some a → s.learning_plan = some p →
      p.lessons[s.current_lesson_idx]? = some lesson →
      pyStrip (effectiveSubmission c a s) = "" →
      ∃ s2, grade_assignment_node c s = some s2 ∧
        s2.weak_points = lesson.key_concepts) ∧
    (∀ a p lesson, s.assignment = some a → s.learning_plan = some p →
      p.lessons[s.current_lesson_idx]? = some lesson →
      pyStrip (effectiveSubmission c a s) ≠ "" →
      ∃ s2, grade_assignment_node c s = some s2 ∧
        s2.weak_points = (c.grade_assignment_agent a.title
          (a.steps.map fun st => st.instruction) a.success_criteria
          (effectiveSubmission c a s)).weak_points) := by
  refine ⟨?_, ?_, ?_⟩
  · intro quiz hq ha
    rw [pqa_scored c s quiz hq ha]
    show ((quizWeakPoints c (effectiveQuizAnswers c s) quiz.questions).take 3).length ≤ 3
    rw [List.length_take]
    exact min_le_left _ _
  · intro a p lesson ha hp hl hsub
    exact ⟨_, grade_empty_eq c s a p lesson ha hp hl hsub, rfl⟩
  · intro a p lesson ha hp hl hsub
    exact ⟨_, grade_scored_eq c s a p lesson ha hp hl hsub, rfl⟩

/-- C6 amended witness: the three branches instantiated on concrete states. -/
theorem weak_points_recomputation_witness :
    (process_quiz_answers witCollab c6qState).weak_points.length ≤ 3 ∧
    (∃ s2, grade_assignment_node witCollab c6State = some s2 ∧
      s2.weak_points = (stubLesson ["alpha", "beta", "gamma", "delta"]).key_concepts) ∧
    (∃ s2, grade_assignment_node witCollab c6bState = some s2 ∧
      s2.weak_points = (witCollab.grade_assignment_agent stubAssignment.title
        (stubAssignment.steps.map fun st => st.instruction)
        stubAssignment.success_criteria
        (effectiveSubmission witCollab stubAssignment c6bState)).weak_points) :=
  ⟨(weak_points_recomputation witCollab c6qState).1 stubQuiz5 rfl (by decide),
   (weak_points_recomputation witCollab c6State).2.1 stubAssignment
     (planK ["alpha", "beta", "gamma", "delta"] 5)
     (stubLesson ["alpha", "beta", "gamma", "delta"]) rfl rfl (by decide) (by decide),
   (weak_points_recomputation witCollab c6bState).2.2 stubAssignment
     (planK ["alpha", "beta", "gamma", "delta"] 5)
     (stubLesson ["alpha", "beta", "gamma", "delta"]) rfl rfl (by decide) (by decide)⟩

/-- Prefix monotonicity: a prefix of a prefix test. -/
lemma isPre_of_append (a b l : List Char) (h : isPre (a ++ b) l = true) :
    isPre a l = true := by
  induction a generalizing l with
  | nil => rfl
  | cons x xs ih =>
    cases l with
    | nil => simp [isPre] at h
    | cons y ys =>
      simp only [List.cons_append, isPre, Bool.and_eq_true] at h ⊢
      exact ⟨h.1, ih ys h.2⟩

/-- Containment of a longer needle implies containment of its leading part. -/
lemma hasSub_of_append (a b l : List Char) (h : hasSub (a ++ b) l = true) :
    hasSub a l = true := by
  induction l with
  | nil =>
    cases a with
    | nil => rfl
    | cons x xs => simp [hasSub] at h
  | cons x xs ih =>
    simp only [hasSub, Bool.or_eq_true] at h ⊢
    rcases h with h | h
    · exact Or.inl (isPre_of_append a b _ h)
    · exact Or.inr (ih h)

/-- A string containing the sentinel phrase also contains the word failed. -/
lemma contains_failed_of_sentinel (t : String)
    (h : strContains t "failed to detect" = true) :
    strContains t "failed" = true := by
  unfold strContains at h ⊢
  have hsplit : "failed to detect".data = "failed".data ++ " to detect".data := by decide
  rw [hsplit] at h
  exact hasSub_of_append _ _ _ h

/-- The two substring tests of the extraction-failure check collapse to the
single word test, because the sentinel contains the word. -/
lemma extractionFailed_eq (t : String) :
    extractionFailed t =
      (pyStrip t == "" || strContains (pyLower (pyStrip t)) "failed") := by
  unfold extractionFailed
  cases h2 : strContains (pyLower (pyStrip t)) "failed to detect"
  · simp [h2]
  · have h3 := contains_failed_of_sentinel _ h2
    simp [h2, h3]

/-- C7 counterexample: a topic that is non-empty and distinct from the
sentinel but contains the word failed routes to request_new_query, so the
claimed iff with the sentinel comparison is false. -/
theorem route_sentinel_cex :
    route_after_extraction c7State = "request_new_query" ∧
    pyStrip c7State.topic ≠ "" ∧ c7State.topic ≠ "failed to detect" ∧
    pyStrip c7State.background ≠ "" ∧ c7State.background ≠ "failed to detect" := by
  refine ⟨by decide, by decide, by decide, by decide, by decide⟩

/-- C7 amended: routing after extraction chooses generate_plan exactly when
both stripped fields are non-empty and their lowercase text does not contain
the substring failed (the check with the full sentinel phrase is subsumed);
every other state routes to request_new_query. -/
theorem route_after_extraction_iff (s : LearningState) :
    (route_after_extraction s = "generate_plan" ↔
      (pyStrip s.topic ≠ "" ∧ pyStrip s.background ≠ "" ∧
       strContains (pyLower (pyStrip s.topic)) "failed" = false ∧
       strContains (pyLower (pyStrip s.background)) "failed" = false)) ∧
    (route_after_extraction s = "generate_plan" ∨
     route_after_extraction s = "request_new_query") := by
  constructor
  · unfold route_after_extraction
    rw [extractionFailed_eq, extractionFailed_eq]
    cases hT : (pyStrip s.topic == "") <;>
      cases hB : (pyStrip s.background == "") <;>
      cases hTc : strContains (pyLower (pyStrip s.topic)) "failed" <;>
      cases hBc : strContains (pyLower (pyStrip s.background)) "failed" <;>
      simp_all [beq_eq_false_iff_ne, beq_iff_eq]
  · unfold route_after_extraction
    split
    · exact Or.inl rfl
    · exact Or.inr rfl

/-- C8 counterexample: the node that resumes past the quiz pause clears
waiting_for_input but leaves input_type at the value quiz, so the pause
signal is not fully cleared on resume. -/
theorem pause_signal_stale_cex :
    (process_quiz_answers witCollab c8State).waiting_for_input = false ∧
    (process_quiz_answers witCollab c8State).input_type = some "quiz" ∧
    (process_quiz_answers witCollab c8State).input_type ≠ none := by
  refine ⟨by decide, by decide, by decide⟩

/-- C8 amended: the pausing nodes set waiting_for_input together with the
identifying input_type, and the resuming nodes clear waiting_for_input but
keep input_type unchanged, never resetting it to none. -/
theorem pause_signal_amended (c : Collaborators) (s s2 : LearningState) :
    (administer_quiz c s = some s2 →
      s2.waiting_for_input = true ∧ s2.input_type = some "quiz") ∧
    (create_assignment_node c s = some s2 →
      s2.waiting_for_input = true ∧ s2.input_type = some "assignment") ∧
    ((request_new_query s).waiting_for_input = true ∧
      (request_new_query s).input_type = some "new_query") ∧
    ((process_quiz_answers c s).waiting_for_input = false ∧
      (process_quiz_answers c s).input_type = s.input_type) ∧
    (grade_assignment_node c s = some s2 →
      s2.waiting_for_input = false ∧ s2.input_type = s.input_type) := by
  refine ⟨?_, ?_, ⟨rfl, rfl⟩, ?_, ?_⟩
  · intro h
    unfold administer_quiz at h
    split at h
    · split at h
      · exact absurd h (by simp)
      · injection h with h2
        subst h2
        exact ⟨rfl, rfl⟩
    · exact absurd h (by simp)
  · intro h
    unfold create_assignment_node at h
    split at h
    · exact absurd h (by simp)
    · split at h
      · exact absurd h (by simp)
      · injection h with h2
        subst h2
        exact ⟨rfl, rfl⟩
  · rcases hq : s.quiz_results with _ | quiz
    · rw [pqa_empty c s (Or.inl hq)]
      exact ⟨rfl, rfl⟩
    · by_cases ha : effectiveQuizAnswers c s = []
      · rw [pqa_empty c s (Or.inr ha)]
        exact ⟨rfl, rfl⟩
      · rw [pqa_scored c s quiz hq ha]
        exact ⟨rfl, rfl⟩
  · intro h
    rcases hA : s.assignment with _ | a
    · unfold grade_assignment_node at h
      simp [hA] at h
    · rcases hP : s.learning_plan with _ | p
      · unfold grade_assignment_node at h
        simp [hA, hP] at h
      · rcases hL : p.lessons[s.current_lesson_idx]? with _ | lesson
        · unfold grade_assignment_node at h
          simp [hA, hP, hL] at h
        · by_cases hsub : pyStrip (effectiveSubmission c a s) = ""
          · rw [grade_empty_eq c s a p lesson hA hP hL hsub] at h
            injection h with h2
            subst h2
            exact ⟨rfl, rfl⟩
          · rw [grade_scored_eq c s a p lesson hA hP hL hsub] at h
            injection h with h2
            subst h2
            exact ⟨rfl, rfl⟩

/-- C8 amended witness: the pausing and resuming nodes instantiated on a
concrete mid-lesson state. -/
theorem pause_signal_amended_witness :
    (c8QuizOut.waiting_for_input = true ∧ c8QuizOut.input_type = some "quiz") ∧
    (c8AsgOut.waiting_for_input = true ∧ c8AsgOut.input_type = some "assignment") ∧
    ((request_new_query c8wState).waiting_for_input = true ∧
      (request_new_query c8wState).input_type = some "new_query") ∧
    ((process_quiz_answers witCollab c8wState).waiting_for_input = false ∧
      (process_quiz_answers witCollab c8wState).input_type = c8wState.input_type) ∧
    (c8GradeOut.waiting_for_input = false ∧
      c8GradeOut.input_type = c8wState.input_type) :=
  ⟨(pause_signal_amended witCollab c8wState c8QuizOut).1 (by decide),
   (pause_signal_amended witCollab c8wState c8AsgOut).2.1 (by decide),
   (pause_signal_amended witCollab c8wState c8AsgOut).2.2.1,
   (pause_signal_amended witCollab c8wState c8AsgOut).2.2.2.1,
   (pause_signal_amended witCollab c8wState c8GradeOut).2.2.2.2 (by decide)⟩

/-- C9: when the grade node has not recorded an assignment score, the
progress decision after Grade consults the collaborator with assignment
score 0 through the defaulting get, instead of failing on the absent
field. -/
theorem should_advance_default_score (c : Collaborators) (s : LearningState)
    (p : LearningPlan) (lesson : Lesson)
    (hc : s.completed = false) (hp : s.learning_plan = some p)
    (hl : p.lessons[s.current_lesson_idx]? = some lesson)
    (hs : s.assignment_score = none) :
    should_advance c s =
      some (c.check_progress_agent lesson.title s.quiz_score 0 s.weak_points
        s.attempt_count).decision.value := by
  unfold should_advance
  simp [hc, hp, hl, hs]

/-- C9 witness: the theorem instantiated on a concrete state with no
assignment score. -/
theorem should_advance_default_score_witness :
    should_advance witCollab c9State =
      some (witCollab.check_progress_agent (stubLesson ["k1", "k2"]).title
        c9State.quiz_score 0 c9State.weak_points
        c9State.attempt_count).decision.value :=
  should_advance_default_score witCollab c9State (planK ["k1", "k2"] 5)
    (stubLesson ["k1", "k2"]) rfl rfl (by decide) rfl

/-- C10: when the quiz is absent or the answers the node ends up with are
empty, process_quiz does not raise, stores quiz score 0, clears
waiting_for_input, and leaves weak_points exactly as they were. -/
theorem process_quiz_missing_inputs (c : Collaborators) (s : LearningState)
    (h : s.quiz_results = none ∨ effectiveQuizAnswers c s = []) :
    (process_quiz_answers c s).quiz_score = 0 ∧
    (process_quiz_answers c s).waiting_for_input = false ∧
    (process_quiz_answers c s).weak_points = s.weak_points := by
  rw [pqa_empty c s h]
  exact ⟨rfl, rfl, rfl⟩

/-- C10 witness: the theorem instantiated on a concrete state with no quiz
stored. -/
theorem process_quiz_missing_inputs_witness :
    (process_quiz_answers witCollab c10State).quiz_score = 0 ∧
    (process_quiz_answers witCollab c10State).waiting_for_input = false ∧
    (process_quiz_answers witCollab c10State).weak_points = c10State.weak_points :=
  process_quiz_missing_inputs witCollab c10State (Or.inl rfl)

end ProfessorAgent
